import Mathlib

/-!
Shallow embedding of the timed-debate screen
(`src/app/timed-debate/page.tsx` of DebateMate).

The component's React state is collected in a single `DebateState`
structure; each event handler of the component becomes a pure function
on that state.  The periodic `setInterval` callback becomes `tick`,
which also reports the audio cues emitted during that tick and whether
the auto-submit branch fired.  The remote call inside `startDebate` is
abstracted as an `Except Unit FetchResolved` outcome supplied by the
caller: `.error ()` models an exception thrown while fetching or
decoding (network failure, non-JSON body), while `.ok data` models the
`await fetch` and `await res.json()` chain resolving — at any HTTP
status, since the code never inspects `res.ok` — with `data` carrying
the status flag and the decoded body's optional `aiResponse` field.
-/

namespace DebateMate

/-- One entry of the conversation transcript; field for field the
`Message` type of the source (`type`, `content`, optional `stance`,
optional `isError`, the latter defaulting to absent/false).  `content`
is declared `string` in the source, but the success path of
`startDebate` stores `data.aiResponse` without validation, so at
runtime the field can hold `undefined`; `none` models that
`undefined`, and every string the code itself writes is `some`. -/
inductive MsgType where
  | user
  | ai
deriving DecidableEq, Repr

structure Message where
  type : MsgType
  content : Option String
  stance : Option String := none
  isError : Bool := false
deriving DecidableEq, Repr

/-- The `TimerSettings` type of the source.  `minutes` and `seconds`
are integers because the `parseInt` handlers can store negative
values. -/
structure TimerSettings where
  minutes : Int
  seconds : Int
  active : Bool
deriving DecidableEq, Repr

/-- The `RoundStructure` type of the source: a named round with a
duration in seconds. -/
structure RoundStructure where
  name : String
  duration : Int
deriving DecidableEq, Repr

/-- The component state: every `useState` hook of `DebatePage`. -/
structure DebateState where
  userInput : String
  loading : Bool
  stance : String
  conversations : List Message
  showTimerSettings : Bool
  timerSettings : TimerSettings
  timeRemaining : Int
  soundEnabled : Bool
  currentRound : Nat
  rounds : List RoundStructure
deriving DecidableEq, Repr

/-- The initial values of the `useState` hooks. -/
def initialState : DebateState where
  userInput := ""
  loading := false
  stance := "pro"
  conversations := []
  showTimerSettings := false
  timerSettings := { minutes := 2, seconds := 0, active := false }
  timeRemaining := 120
  soundEnabled := true
  currentRound := 0
  rounds :=
    [ { name := "Opening Statement", duration := 120 },
      { name := "Rebuttal", duration := 180 },
      { name := "Closing Statement", duration := 60 } ]

/-- Model of JavaScript `String.prototype.trim`: strip whitespace from
both ends.  (The source only ever tests the result for emptiness.) -/
def jsTrim (v : String) : String :=
  String.mk (((v.data.dropWhile Char.isWhitespace).reverse.dropWhile
      Char.isWhitespace).reverse)

/-- Model of JavaScript `parseInt` on the strings produced by the
number inputs: skip leading whitespace, read an optional sign and a
run of decimal digits; `none` models `NaN`. -/
def jsParseInt (v : String) : Option Int :=
  let cs := v.data.dropWhile Char.isWhitespace
  let signAndRest : Bool × List Char :=
    match cs with
    | '-' :: r => (true, r)
    | '+' :: r => (false, r)
    | r => (false, r)
  let ds := signAndRest.2.takeWhile Char.isDigit
  if ds = [] then none
  else
    let n : Nat := ds.foldl (fun acc c => acc * 10 + (c.toNat - 48)) 0
    some (if signAndRest.1 then -(n : Int) else (n : Int))

/-- `parseInt(v) || 0` of the minutes/seconds handlers: `NaN` becomes
0; a parsed 0 is falsy and also yields 0, so this is `getD 0`. -/
def parseIntOrZero (v : String) : Int :=
  (jsParseInt v).getD 0

/-- `parseInt(v) || 60` of the round-duration handler: `NaN` becomes
60, and a parsed 0 is falsy in JavaScript, so it also becomes 60. -/
def parseIntOrSixty (v : String) : Int :=
  match jsParseInt v with
  | none => 60
  | some n => if n = 0 then 60 else n

/-- JavaScript `Math.floor(a / b)`: floor division. -/
def jsFloorDiv (a b : Int) : Int := Int.fdiv a b

/-- JavaScript `a % b`: remainder with the sign of the dividend. -/
def jsRem (a b : Int) : Int := Int.tmod a b

/-- `startTimer`: recompute the total from the configured minutes and
seconds, load it into `timeRemaining`, activate the timer and close
the settings panel. -/
def startTimer (s : DebateState) : DebateState :=
  let totalSeconds := s.timerSettings.minutes * 60 + s.timerSettings.seconds
  { s with
    timeRemaining := totalSeconds
    timerSettings := { s.timerSettings with active := true }
    showTimerSettings := false }

/-- `pauseTimer`: deactivate the timer. -/
def pauseTimer (s : DebateState) : DebateState :=
  { s with timerSettings := { s.timerSettings with active := false } }

/-- `resetTimer`: pause, then restore the configured duration. -/
def resetTimer (s : DebateState) : DebateState :=
  let s1 := pauseTimer s
  { s1 with
    timeRemaining := s1.timerSettings.minutes * 60 + s1.timerSettings.seconds }

/-- `nextRound`: when the cursor is not on the last round, advance it
and load the next round's duration into the timer, paused. -/
def nextRound (s : DebateState) : DebateState :=
  if s.currentRound < s.rounds.length - 1 then
    let nextRoundIndex := s.currentRound + 1
    let nextDuration :=
      (s.rounds.getD nextRoundIndex { name := "", duration := 0 }).duration
    { s with
      currentRound := nextRoundIndex
      timerSettings :=
        { minutes := jsFloorDiv nextDuration 60
          seconds := jsRem nextDuration 60
          active := false }
      timeRemaining := nextDuration }
  else s

/-- The fixed placeholder appended when the response call fails. -/
def failedReplyMessage : Message :=
  { type := .ai
    content := some "Unable to generate response. Please try again."
    isError := true }

/-- The `UserArgument` entry `startDebate` appends for the current
draft and stance. -/
def userMessageOf (s : DebateState) : Message :=
  { type := .user, content := some s.userInput, stance := some s.stance }

/-- The synchronous prefix of `startDebate`, everything before the
`await`: the empty-draft guard, appending the user message, setting
`loading`, clearing the draft and pausing the timer.  The boolean
reports whether a request was issued. -/
def startDebateSync (s : DebateState) : DebateState × Bool :=
  if jsTrim s.userInput = "" then (s, false)
  else
    ({ s with
        conversations := s.conversations ++ [userMessageOf s]
        loading := true
        userInput := ""
        timerSettings := { s.timerSettings with active := false } },
      true)

/-- The observable result when `await fetch(...)` and
`await res.json()` both resolve: the HTTP success flag `res.ok` — which
the code never consults, so a non-2xx response with a parseable JSON
body still lands here — and the decoded body's `aiResponse` field,
`none` (JavaScript `undefined`) when the body carries no such field,
as a typical non-success error body does. -/
structure FetchResolved where
  okStatus : Bool
  aiResponse : Option String
deriving DecidableEq, Repr

/-- `startDebate`, with the fetch outcome supplied as a parameter:
`.ok data` takes the try-block's success path, appending an ai message
whose content is `data.aiResponse` (regardless of `data.okStatus`,
which the code never reads); `.error ()` models the try-block throwing
and appends the fixed placeholder; the `finally` clause clears
`loading` in both cases. -/
def startDebate (outcome : Except Unit FetchResolved) (s : DebateState) :
    DebateState :=
  let sync := startDebateSync s
  if sync.2 then
    match outcome with
    | .ok data =>
        { sync.1 with
          conversations := sync.1.conversations ++
            [{ type := .ai, content := data.aiResponse }]
          loading := false }
    | .error _ =>
        { sync.1 with
          conversations := sync.1.conversations ++ [failedReplyMessage]
          loading := false }
  else sync.1

/-- The four audio cues the tick callback can play. -/
inductive Cue where
  | thirtySecond
  | fifteenSecond
  | fiveSecond
  | timeUp
deriving DecidableEq, Repr

/-- The remaining-seconds value at which each cue fires. -/
def cueThreshold : Cue → Int
  | .thirtySecond => 30
  | .fifteenSecond => 15
  | .fiveSecond => 5
  | .timeUp => 0

/-- The cues played during one tick whose post-decrement value is
`newTime`, gated by the sound flag. -/
def tickCues (soundOn : Bool) (newTime : Int) : List Cue :=
  if soundOn then
    (if newTime = 30 then [Cue.thirtySecond] else []) ++
    (if newTime = 15 then [Cue.fifteenSecond] else []) ++
    (if newTime = 5 then [Cue.fiveSecond] else []) ++
    (if newTime = 0 then [Cue.timeUp] else [])
  else []

/-- Result of one tick: the new state, the cues played, and whether
the auto-submit branch called `startDebate`. -/
structure TickResult where
  state : DebateState
  cues : List Cue
  submitted : Bool
deriving DecidableEq, Repr

/-- One firing of the interval callback.  The interval only exists
while `timerSettings.active && timeRemaining > 0` (the effect clears
it otherwise), so outside that guard a tick is the identity.  Inside,
`newTime = prev - 1` is stored; cues are played on post-decrement
threshold equality; when `newTime === 0` and the draft trims
non-empty, `startDebate` is invoked — only its synchronous prefix runs
within the tick. -/
def tick (s : DebateState) : TickResult :=
  if s.timerSettings.active = true ∧ 0 < s.timeRemaining then
    let newTime := s.timeRemaining - 1
    let cues := tickCues s.soundEnabled newTime
    if newTime = 0 ∧ jsTrim s.userInput ≠ "" then
      { state := { (startDebateSync s).1 with timeRemaining := newTime }
        cues := cues
        submitted := true }
    else
      { state := { s with timeRemaining := newTime }
        cues := cues
        submitted := false }
  else
    { state := s, cues := [], submitted := false }

/-- Iterate `tick` `n` times, collecting all cues in order. -/
def runTicks : Nat → DebateState → DebateState × List Cue
  | 0, s => (s, [])
  | n + 1, s =>
      let r := tick s
      let rest := runTicks n r.state
      (rest.1, r.cues ++ rest.2)

/-- Iterate `tick` `n` times, counting auto-submissions. -/
def runTicksSubmits : Nat → DebateState → Nat
  | 0, _ => 0
  | n + 1, s =>
      let r := tick s
      (if r.submitted then 1 else 0) + runTicksSubmits n r.state

/-- The minutes-field handler of the settings panel:
`parseInt(e.target.value) || 0`. -/
def setMinutesInput (v : String) (s : DebateState) : DebateState :=
  { s with timerSettings := { s.timerSettings with minutes := parseIntOrZero v } }

/-- The seconds-field handler of the settings panel:
`parseInt(e.target.value) || 0`. -/
def setSecondsInput (v : String) (s : DebateState) : DebateState :=
  { s with timerSettings := { s.timerSettings with seconds := parseIntOrZero v } }

/-- Replace the element at `i` by `f` of it; identity out of bounds
(the handlers are only invoked for rendered, in-bounds indices). -/
def updateIdx (f : α → α) : Nat → List α → List α
  | _, [] => []
  | 0, a :: as => f a :: as
  | n + 1, a :: as => a :: updateIdx f n as

/-- The round-duration handler: store `parseInt(v) || 60` into the
round at `index`. -/
def setDurationInput (index : Nat) (v : String) (s : DebateState) : DebateState :=
  { s with
    rounds := updateIdx (fun r => { r with duration := parseIntOrSixty v }) index s.rounds }

/-- The remove-round button: rendered only while `rounds.length > 1`;
filters out the clicked index and clamps the cursor when it now
exceeds the shortened list. -/
def removeRound (index : Nat) (s : DebateState) : DebateState :=
  if 1 < s.rounds.length then
    let newRounds := (s.rounds.enum.filter (fun p => p.1 ≠ index)).map Prod.snd
    if newRounds.length ≤ s.currentRound then
      { s with rounds := newRounds, currentRound := newRounds.length - 1 }
    else
      { s with rounds := newRounds }
  else s

/-- The add-round button: append `Round (n+1)` with a fixed 120-second
duration. -/
def addRound (s : DebateState) : DebateState :=
  { s with
    rounds := s.rounds ++
      [{ name := "Round " ++ toString (s.rounds.length + 1), duration := 120 }] }

/-! ### Concrete states used by witnesses and counterexamples -/

/-- A running timer at 5 seconds remaining. -/
def wRunning : DebateState :=
  { initialState with
    timerSettings := { minutes := 0, seconds := 5, active := true }
    timeRemaining := 5 }

/-- `wRunning` with the sound flag cleared. -/
def soundOffState : DebateState :=
  { wRunning with soundEnabled := false }

/-- A response call in flight (`loading`), a fresh draft typed while
waiting, and one second left on a running timer. -/
def cAwaitState : DebateState :=
  { initialState with
    loading := true
    userInput := "new draft"
    timerSettings := { minutes := 0, seconds := 30, active := true }
    timeRemaining := 1 }

/-- Timer configured to 0 minutes 5 seconds and started. -/
def fiveSecondState : DebateState :=
  startTimer
    { initialState with
      timerSettings := { minutes := 0, seconds := 5, active := false } }

/-- Timer configured to 0 minutes 6 seconds and started. -/
def sixSecondState : DebateState :=
  startTimer
    { initialState with
      timerSettings := { minutes := 0, seconds := 6, active := false } }

/-- A paused timer part-way through its 2-minute budget. -/
def pausedFifty : DebateState :=
  { initialState with timeRemaining := 50 }

/-- An idle state with a non-empty draft. -/
def proArgState : DebateState :=
  { initialState with userInput := "Tax cuts help growth" }

/-- Timer configured to 0 minutes 0 seconds. -/
def zeroConfigState : DebateState :=
  { initialState with
    timerSettings := { minutes := 0, seconds := 0, active := false } }

/-- The two-round plan of the C9 scenario, cursor on the first round. -/
def twoRoundState : DebateState :=
  { initialState with
    rounds := [{ name := "Opening", duration := 120 },
               { name := "Rebuttal", duration := 180 }]
    currentRound := 0 }

/-! ### Helper lemmas about `tick`, cues and submissions -/

theorem tickCues_sublist (se : Bool) (t : Int) :
    (tickCues se t).Sublist
      [Cue.thirtySecond, Cue.fifteenSecond, Cue.fiveSecond, Cue.timeUp] := by
  unfold tickCues
  split
  · split <;> split <;> split <;> split <;> decide
  · decide

theorem count_tickCues_le_one (se : Bool) (t : Int) (c : Cue) :
    List.count c (tickCues se t) ≤ 1 := by
  have h := (tickCues_sublist se t).count_le c
  have h2 : List.count c
      [Cue.thirtySecond, Cue.fifteenSecond, Cue.fiveSecond, Cue.timeUp] = 1 := by
    cases c <;> decide
  omega

theorem mem_tickCues {se : Bool} {t : Int} {c : Cue} (h : c ∈ tickCues se t) :
    t = cueThreshold c := by
  unfold tickCues at h
  split at h
  · simp only [List.mem_append] at h
    rcases h with ((h | h) | h) | h <;> split at h <;>
      simp_all [cueThreshold]
  · simp at h

theorem startDebateSync_soundEnabled (s : DebateState) :
    (startDebateSync s).1.soundEnabled = s.soundEnabled := by
  unfold startDebateSync
  split <;> rfl

theorem tick_timeRemaining_le (s : DebateState) :
    (tick s).state.timeRemaining ≤ s.timeRemaining := by
  by_cases h1 : s.timerSettings.active = true ∧ 0 < s.timeRemaining
  · by_cases h2 : s.timeRemaining - 1 = 0 ∧ jsTrim s.userInput ≠ ""
    · simp [tick, h1, h2]
      omega
    · simp [tick, h1, h2]
  · simp [tick, h1]

theorem tick_soundEnabled (s : DebateState) :
    (tick s).state.soundEnabled = s.soundEnabled := by
  by_cases h1 : s.timerSettings.active = true ∧ 0 < s.timeRemaining
  · by_cases h2 : s.timeRemaining - 1 = 0 ∧ jsTrim s.userInput ≠ ""
    · simp [tick, h1, h2, startDebateSync_soundEnabled]
    · simp [tick, h1, h2]
  · simp [tick, h1]

theorem mem_tick_cues {s : DebateState} {c : Cue} (h : c ∈ (tick s).cues) :
    s.timeRemaining - 1 = cueThreshold c ∧ 0 < s.timeRemaining ∧
      (tick s).state.timeRemaining = cueThreshold c := by
  by_cases h1 : s.timerSettings.active = true ∧ 0 < s.timeRemaining
  · by_cases h2 : s.timeRemaining - 1 = 0 ∧ jsTrim s.userInput ≠ ""
    · simp only [tick, if_pos h1, if_pos h2] at h ⊢
      have ht := mem_tickCues h
      exact ⟨ht, h1.2, by simp [← ht]⟩
    · simp only [tick, if_pos h1, if_neg h2] at h ⊢
      have ht := mem_tickCues h
      exact ⟨ht, h1.2, by simp [← ht]⟩
  · simp [tick, h1] at h

theorem count_tick_cues_le_one (s : DebateState) (c : Cue) :
    List.count c (tick s).cues ≤ 1 := by
  by_cases h1 : s.timerSettings.active = true ∧ 0 < s.timeRemaining
  · by_cases h2 : s.timeRemaining - 1 = 0 ∧ jsTrim s.userInput ≠ ""
    · simp only [tick, if_pos h1, if_pos h2]
      exact count_tickCues_le_one _ _ _
    · simp only [tick, if_pos h1, if_neg h2]
      exact count_tickCues_le_one _ _ _
  · simp [tick, h1]

theorem tick_cues_soundOff {s : DebateState} (h : s.soundEnabled = false) :
    (tick s).cues = [] := by
  by_cases h1 : s.timerSettings.active = true ∧ 0 < s.timeRemaining
  · by_cases h2 : s.timeRemaining - 1 = 0 ∧ jsTrim s.userInput ≠ ""
    · simp [tick, h1, h2, tickCues, h]
    · simp [tick, h1, h2, tickCues, h]
  · simp [tick, h1]

theorem cue_not_refired (c : Cue) :
    ∀ (n : Nat) (s : DebateState), s.timeRemaining ≤ cueThreshold c →
      c ∉ (runTicks n s).2
  | 0, s, _ => by simp [runTicks]
  | n + 1, s, h => by
    have hle := tick_timeRemaining_le s
    have ih := cue_not_refired c n (tick s).state (le_trans hle h)
    simp only [runTicks, List.mem_append]
    rintro (hc | hc)
    · have hm := mem_tick_cues hc
      omega
    · exact ih hc

theorem count_runTicks_le_one (c : Cue) :
    ∀ (n : Nat) (s : DebateState), List.count c (runTicks n s).2 ≤ 1
  | 0, s => by simp [runTicks]
  | n + 1, s => by
    simp only [runTicks, List.count_append]
    by_cases hc : c ∈ (tick s).cues
    · have hm := mem_tick_cues hc
      have hst : (tick s).state.timeRemaining ≤ cueThreshold c := le_of_eq hm.2.2
      have h0 : c ∉ (runTicks n (tick s).state).2 := cue_not_refired c n _ hst
      have hz : List.count c (runTicks n (tick s).state).2 = 0 :=
        List.count_eq_zero.mpr h0
      have h1 := count_tick_cues_le_one s c
      omega
    · have hz : List.count c (tick s).cues = 0 := List.count_eq_zero.mpr hc
      have ih := count_runTicks_le_one c n (tick s).state
      omega

theorem runTicks_soundOff :
    ∀ (n : Nat) (s : DebateState), s.soundEnabled = false → (runTicks n s).2 = []
  | 0, _, _ => rfl
  | n + 1, s, h => by
    have h1 := tick_cues_soundOff h
    have h2 : (tick s).state.soundEnabled = false := (tick_soundEnabled s).trans h
    simp [runTicks, h1, runTicks_soundOff n (tick s).state h2]

theorem tick_at_nonpos {s : DebateState} (h : s.timeRemaining ≤ 0) :
    tick s = { state := s, cues := [], submitted := false } := by
  have h1 : ¬(s.timerSettings.active = true ∧ 0 < s.timeRemaining) :=
    fun hc => absurd hc.2 (by omega)
  simp [tick, h1]

theorem tick_submitted_timeRemaining {s : DebateState}
    (h : (tick s).submitted = true) : (tick s).state.timeRemaining = 0 := by
  by_cases h1 : s.timerSettings.active = true ∧ 0 < s.timeRemaining
  · by_cases h2 : s.timeRemaining - 1 = 0 ∧ jsTrim s.userInput ≠ ""
    · simp only [tick, if_pos h1, if_pos h2]
      exact h2.1
    · simp only [tick, if_pos h1, if_neg h2] at h
      exact absurd h (by decide)
  · simp [tick, h1] at h

theorem runTicksSubmits_zero :
    ∀ (n : Nat) (s : DebateState), s.timeRemaining ≤ 0 → runTicksSubmits n s = 0
  | 0, _, _ => rfl
  | n + 1, s, h => by
    have ht := tick_at_nonpos h
    simp [runTicksSubmits, ht, runTicksSubmits_zero n s h]

theorem enumFrom_filter_ne_eraseIdx {α : Type} (l : List α) :
    ∀ (n i : Nat),
      ((List.enumFrom n l).filter (fun p => p.1 ≠ n + i)).map Prod.snd
        = l.eraseIdx i := by
  induction l with
  | nil => intro n i; rfl
  | cons a as ih =>
    intro n i
    cases i with
    | zero =>
      rw [List.enumFrom_cons, List.filter_cons_of_neg (by simp),
        List.eraseIdx_cons_zero, List.filter_eq_self.mpr, List.enumFrom_map_snd]
      intro q hq
      obtain ⟨j, x⟩ := q
      have hj := (List.mem_enumFrom hq).1
      simp only [ne_eq, decide_eq_true_eq]
      omega
    | succ j =>
      have harith : n + (j + 1) = (n + 1) + j := by omega
      rw [List.enumFrom_cons, harith,
        List.filter_cons_of_pos (by simp only [ne_eq, decide_eq_true_eq]; omega),
        List.map_cons, List.eraseIdx_cons_succ, ih (n + 1) j]

theorem enum_filter_ne_eraseIdx {α : Type} (l : List α) (i : Nat) :
    ((l.enum.filter (fun p => p.1 ≠ i)).map Prod.snd) = l.eraseIdx i := by
  have h := enumFrom_filter_ne_eraseIdx l 0 i
  simpa using h

theorem updateIdx_getD {α : Type} (f : α → α) :
    ∀ (i : Nat) (l : List α) (d : α), i < l.length →
      (updateIdx f i l).getD i d = f (l.getD i d)
  | _, [], _, h => by simp at h
  | 0, _ :: _, _, _ => rfl
  | i + 1, a :: as, d, h => by
    simp only [updateIdx, List.getD_cons_succ]
    exact updateIdx_getD f i as d (by simpa using h)

theorem runTicksSubmits_le_one :
    ∀ (n : Nat) (s : DebateState), runTicksSubmits n s ≤ 1
  | 0, _ => by simp [runTicksSubmits]
  | n + 1, s => by
    simp only [runTicksSubmits]
    by_cases hs : (tick s).submitted = true
    · have h0 : (tick s).state.timeRemaining = 0 := tick_submitted_timeRemaining hs
      have hz := runTicksSubmits_zero n (tick s).state (le_of_eq h0)
      simp [hs, hz]
    · have ih := runTicksSubmits_le_one n (tick s).state
      simp only [Bool.not_eq_true] at hs
      simp [hs]
      omega

/-! ### Claim theorems -/

/-- Claim C1: with the timer running, one tick takes `remainingSeconds`
from `t` to `t - 1` when `t > 0`, and is a no-op when `t = 0` (the
interval is cleared once `timeRemaining` is no longer positive). -/
theorem claim_C1_tick (s : DebateState) (t : Int) (h0 : 0 ≤ t)
    (hrun : s.timerSettings.active = true) (ht : s.timeRemaining = t) :
    (0 < t → (tick s).state.timeRemaining = t - 1) ∧
    (t = 0 → tick s = { state := s, cues := [], submitted := false }) := by
  subst ht
  refine ⟨fun hpos => ?_, fun hz => tick_at_nonpos (le_of_eq hz)⟩
  have h1 : s.timerSettings.active = true ∧ 0 < s.timeRemaining := ⟨hrun, hpos⟩
  by_cases h2 : s.timeRemaining - 1 = 0 ∧ jsTrim s.userInput ≠ ""
  · simp [tick, h1, h2]
  · simp [tick, h1, h2]

/-- Witness for C1: a running timer at 5 seconds decrements to 4; at 0
the tick is the identity. -/
theorem claim_C1_witness :
    (tick wRunning).state.timeRemaining = 5 - 1 ∧
    tick { wRunning with timeRemaining := 0 } =
      { state := { wRunning with timeRemaining := 0 },
        cues := [], submitted := false } := by
  constructor
  · exact (claim_C1_tick wRunning 5 (by decide) rfl rfl).1 (by decide)
  · exact (claim_C1_tick { wRunning with timeRemaining := 0 } 0
      (by decide) rfl rfl).2 rfl

/-- Claim C2 counterexample: with a response call already in flight
(`loading = true`) and a non-empty draft, the expiry tick still invokes
`startDebate` — the submit is processed (the user message is appended),
not dropped, because `startDebate` never checks `loading`. -/
theorem claim_C2_counterexample :
    cAwaitState.loading = true ∧ (tick cAwaitState).submitted = true ∧
    (tick cAwaitState).state.conversations.length =
      cAwaitState.conversations.length + 1 := by decide

/-- Claim C2, amended: the expiry tick with a non-empty trimmed draft
submits exactly once per timer run (later ticks at 0 are no-ops and
never resubmit), and the expiry-triggered submit is issued regardless
of whether a response call is already in flight — it is not dropped. -/
theorem claim_C2_amended :
    (∀ s : DebateState, s.timerSettings.active = true → s.timeRemaining = 1 →
        jsTrim s.userInput ≠ "" →
        (tick s).submitted = true ∧ (tick s).state.timeRemaining = 0 ∧
          (tick s).state.userInput = "" ∧ (tick s).state.loading = true ∧
          (tick s).state.conversations = s.conversations ++ [userMessageOf s]) ∧
    (∀ (n : Nat) (s : DebateState), runTicksSubmits n s ≤ 1) ∧
    (∀ s : DebateState, s.timeRemaining ≤ 0 →
        tick s = { state := s, cues := [], submitted := false }) := by
  refine ⟨fun s hrun h1 hne => ?_, runTicksSubmits_le_one,
    fun s h => tick_at_nonpos h⟩
  have hg : s.timerSettings.active = true ∧ 0 < s.timeRemaining :=
    ⟨hrun, by omega⟩
  have h2 : s.timeRemaining - 1 = 0 ∧ jsTrim s.userInput ≠ "" := ⟨by omega, hne⟩
  simp [tick, hg, h2, startDebateSync, hne, userMessageOf]

/-- Witness for C2 Amended at the concrete in-flight state. -/
theorem claim_C2_witness :
    (tick cAwaitState).state.timeRemaining = 0 ∧
    runTicksSubmits 4 cAwaitState ≤ 1 :=
  ⟨(claim_C2_amended.1 cAwaitState rfl rfl (by decide)).2.1,
    claim_C2_amended.2.1 4 cAwaitState⟩

/-- Claim C3 counterexample: the 0m5s scenario.  Starting at 5 seconds
and ticking 5 times with sound enabled plays only the time-up cue —
the 5-second cue never fires, because it fires only when a tick's
post-decrement value equals 5, which requires starting from at least 6. -/
theorem claim_C3_counterexample :
    fiveSecondState.soundEnabled = true ∧ fiveSecondState.timeRemaining = 5 ∧
    (runTicks 5 fiveSecondState).2 = [Cue.timeUp] ∧
    Cue.fiveSecond ∉ (runTicks 5 fiveSecondState).2 := by decide

/-- Claim C3, amended: each tick emits exactly the cues whose
threshold equals the post-decrement value, gated by the sound flag;
no cue fires twice in a run; with sound disabled nothing fires.  The
0m5s scenario fires only the time-up cue, exactly once; starting from
6 seconds fires the five-second cue and then the time-up cue. -/
theorem claim_C3_amended :
    (∀ s : DebateState, s.timerSettings.active = true → 0 < s.timeRemaining →
        (tick s).cues = tickCues s.soundEnabled (s.timeRemaining - 1)) ∧
    (∀ (n : Nat) (s : DebateState), s.soundEnabled = false →
        (runTicks n s).2 = []) ∧
    (∀ (n : Nat) (s : DebateState) (c : Cue),
        List.count c (runTicks n s).2 ≤ 1) ∧
    (runTicks 5 fiveSecondState).2 = [Cue.timeUp] ∧
    (runTicks 6 sixSecondState).2 = [Cue.fiveSecond, Cue.timeUp] := by
  refine ⟨fun s hrun hpos => ?_, fun n s h => runTicks_soundOff n s h,
    fun n s c => count_runTicks_le_one c n s, by decide, by decide⟩
  have hg : s.timerSettings.active = true ∧ 0 < s.timeRemaining := ⟨hrun, hpos⟩
  by_cases h2 : s.timeRemaining - 1 = 0 ∧ jsTrim s.userInput ≠ ""
  · simp [tick, hg, h2]
  · simp [tick, hg, h2]

/-- Witness for C3 Amended at concrete states. -/
theorem claim_C3_witness :
    (tick wRunning).cues =
      tickCues wRunning.soundEnabled (wRunning.timeRemaining - 1) ∧
    (runTicks 3 soundOffState).2 = [] ∧
    List.count Cue.timeUp (runTicks 5 fiveSecondState).2 ≤ 1 :=
  ⟨claim_C3_amended.1 wRunning rfl (by decide),
    claim_C3_amended.2.1 3 soundOffState rfl,
    claim_C3_amended.2.2.1 5 fiveSecondState Cue.timeUp⟩

/-- Claim C4 counterexample: `startTimer` does not leave
`remainingSeconds` unchanged — a paused state with 50 seconds left is
reset to the configured 120; and with `remainingSeconds = 0` the call
is not a no-op either. -/
theorem claim_C4_counterexample :
    pausedFifty.timeRemaining = 50 ∧
    (startTimer pausedFifty).timeRemaining = 120 ∧
    (startTimer { initialState with timeRemaining := 0 }).timeRemaining = 120 ∧
    (startTimer { initialState with
        timeRemaining := 0 }).timerSettings.active = true := by decide

/-- Claim C4, amended: `startTimer` always sets `isRunning`, recomputes
`remainingSeconds` from the configured minutes and seconds (overwriting
whatever remained) and closes the settings panel, in every state —
including when already running or when `remainingSeconds` is 0. -/
theorem claim_C4_amended (s : DebateState) :
    startTimer s =
      { s with
        timeRemaining := s.timerSettings.minutes * 60 + s.timerSettings.seconds
        timerSettings := { s.timerSettings with active := true }
        showTimerSettings := false } := rfl

/-- Claim C5 counterexample: a non-success HTTP status is not a
failure for this code.  When the response resolves with `okStatus =
false` and a parseable JSON error body carrying no `aiResponse` field,
the try block completes normally: a plain ai reply with `undefined`
content is appended — no `FailedReply`, no placeholder — because the
code never checks `res.ok`. -/
theorem claim_C5_counterexample :
    (startDebate (.ok { okStatus := false, aiResponse := none }) proArgState).conversations
      = proArgState.conversations ++
        [userMessageOf proArgState,
         { type := MsgType.ai, content := none, stance := none, isError := false }] ∧
    failedReplyMessage ∉
      (startDebate (.ok { okStatus := false, aiResponse := none })
        proArgState).conversations ∧
    (∀ m ∈ (startDebate (.ok { okStatus := false, aiResponse := none })
        proArgState).conversations, m.isError = false) := by decide

/-- Claim C5, amended: only a thrown exception (network error or a
body that fails JSON decoding) is handled as failure — then exactly
the user message and one fixed-placeholder failed reply are appended,
`loading` is cleared and no retry is issued.  A call that resolves,
at any HTTP status (the code never checks `res.ok`), takes the success
path and appends one plain reply whose content is the body's
`aiResponse` field, `undefined` when absent.  Exactly one of the two
paths runs per call. -/
theorem claim_C5_amended (s : DebateState) (h : jsTrim s.userInput ≠ "") :
    startDebate (.error ()) s =
      { s with
        conversations := s.conversations ++ [userMessageOf s, failedReplyMessage]
        loading := false
        userInput := ""
        timerSettings := { s.timerSettings with active := false } } ∧
    failedReplyMessage.content = some "Unable to generate response. Please try again." ∧
    failedReplyMessage.isError = true ∧
    ∀ data : FetchResolved, startDebate (.ok data) s =
      { s with
        conversations := s.conversations ++
          [userMessageOf s, { type := MsgType.ai, content := data.aiResponse }]
        loading := false
        userInput := ""
        timerSettings := { s.timerSettings with active := false } } := by
  refine ⟨?_, rfl, rfl, fun data => ?_⟩ <;>
    simp [startDebate, startDebateSync, h]

/-- Witness for C5 Amended at a concrete non-empty draft: the thrown
path appends the placeholder, and a resolved non-success response
appends a plain reply instead. -/
theorem claim_C5_witness :
    ((startDebate (.error ()) proArgState).conversations =
      proArgState.conversations ++ [userMessageOf proArgState, failedReplyMessage] ∧
    (startDebate (.error ()) proArgState).loading = false) ∧
    (startDebate (.ok { okStatus := false, aiResponse := none }) proArgState).conversations
      = proArgState.conversations ++
        [userMessageOf proArgState, { type := MsgType.ai, content := none }] := by
  have h := claim_C5_amended proArgState (by decide)
  refine ⟨?_, ?_⟩
  · rw [h.1]
    exact ⟨rfl, rfl⟩
  · rw [h.2.2.2 { okStatus := false, aiResponse := none }]

/-- Claim C6 counterexample: a negative minutes input is stored as-is,
not clamped to 0 — the handler only defaults `NaN` to 0 — so
`startTimer` computes a negative `remainingSeconds`. -/
theorem claim_C6_counterexample :
    (setMinutesInput "-3" zeroConfigState).timerSettings.minutes = -3 ∧
    (startTimer (setMinutesInput "-3" zeroConfigState)).timeRemaining = -180 ∧
    ¬(0 ≤ (startTimer (setMinutesInput "-3" zeroConfigState)).timeRemaining) := by
  decide

/-- Claim C6, amended: non-numeric minutes/seconds input defaults to 0,
but any parsed numeric value — including a negative one — is stored
unchanged, so the `remainingSeconds` computed by start/reset can be
negative. -/
theorem claim_C6_amended :
    (∀ (v : String) (s : DebateState), jsParseInt v = none →
        (setMinutesInput v s).timerSettings.minutes = 0 ∧
        (setSecondsInput v s).timerSettings.seconds = 0) ∧
    (∀ (v : String) (s : DebateState) (n : Int), jsParseInt v = some n →
        (setMinutesInput v s).timerSettings.minutes = n ∧
        (setSecondsInput v s).timerSettings.seconds = n) ∧
    (∀ s : DebateState,
        (startTimer s).timeRemaining =
          s.timerSettings.minutes * 60 + s.timerSettings.seconds ∧
        (resetTimer s).timeRemaining =
          s.timerSettings.minutes * 60 + s.timerSettings.seconds) := by
  refine ⟨fun v s h => ?_, fun v s n h => ?_, fun s => ⟨rfl, rfl⟩⟩
  · simp [setMinutesInput, setSecondsInput, parseIntOrZero, h]
  · simp [setMinutesInput, setSecondsInput, parseIntOrZero, h]

/-- Witness for C6 Amended at concrete inputs. -/
theorem claim_C6_witness :
    (setMinutesInput "abc" zeroConfigState).timerSettings.minutes = 0 ∧
    (setMinutesInput "-3" zeroConfigState).timerSettings.minutes = -3 :=
  ⟨(claim_C6_amended.1 "abc" zeroConfigState (by decide)).1,
    (claim_C6_amended.2.1 "-3" zeroConfigState (-3) (by decide)).1⟩

/-- Claim C7: removing a round from a length-1 plan is a no-op; from a
longer plan it removes exactly the round at the given index and the
cursor invariant (cursor strictly below the plan length) holds after
the removal, the cursor being clamped to the new last index when
needed. -/
theorem claim_C7_removeRound (i : Nat) (s : DebateState) :
    (s.rounds.length = 1 → removeRound i s = s) ∧
    (1 < s.rounds.length → i < s.rounds.length → s.currentRound < s.rounds.length →
      (removeRound i s).rounds = s.rounds.eraseIdx i ∧
      (removeRound i s).rounds.length = s.rounds.length - 1 ∧
      (removeRound i s).currentRound < (removeRound i s).rounds.length) := by
  constructor
  · intro h1
    have hn : ¬ 1 < s.rounds.length := by omega
    simp [removeRound, hn]
  · intro hlen hi _
    have hrounds : ((s.rounds.enum.filter (fun p => p.1 ≠ i)).map Prod.snd)
        = s.rounds.eraseIdx i := enum_filter_ne_eraseIdx s.rounds i
    have hlen2 : (s.rounds.eraseIdx i).length = s.rounds.length - 1 := by
      rw [List.length_eraseIdx]
      simp [hi]
    by_cases hc : (s.rounds.eraseIdx i).length ≤ s.currentRound
    · simp only [removeRound, if_pos hlen, hrounds, if_pos hc]
      refine ⟨trivial, hlen2, ?_⟩
      show (s.rounds.eraseIdx i).length - 1 < (s.rounds.eraseIdx i).length
      omega
    · simp only [removeRound, if_pos hlen, hrounds, if_neg hc]
      refine ⟨trivial, hlen2, ?_⟩
      show s.currentRound < (s.rounds.eraseIdx i).length
      omega

/-- Witness for C7: removing from a one-round plan is a no-op, and
removing the first round while the cursor sits on the last keeps the
cursor in bounds. -/
theorem claim_C7_witness :
    removeRound 0 { initialState with rounds := [{ name := "Only", duration := 60 }] }
        = { initialState with rounds := [{ name := "Only", duration := 60 }] } ∧
    (removeRound 0 { initialState with currentRound := 2 }).currentRound <
      (removeRound 0 { initialState with currentRound := 2 }).rounds.length :=
  ⟨(claim_C7_removeRound 0 _).1 rfl,
    ((claim_C7_removeRound 0 { initialState with currentRound := 2 }).2
      (by decide) (by decide) (by decide)).2.2⟩

/-- Claim C8 counterexample: the duration handler stores `parseInt`
of the input without enforcing any 5-second floor — the numeric input
3 is stored as 3, below 5. -/
theorem claim_C8_counterexample :
    ((setDurationInput 0 "3" initialState).rounds.getD 0
        { name := "", duration := 0 }).duration = 3 ∧
    ¬(5 ≤ ((setDurationInput 0 "3" initialState).rounds.getD 0
        { name := "", duration := 0 }).duration) := by decide

/-- Claim C8, amended: addRound appends a fixed 120-second round;
the duration handler stores `parseInt` of the input, defaulting to 60
when the input is non-numeric (or parses to the falsy 0), but enforces
no 5-second floor — numeric values below 5 are stored as given. -/
theorem claim_C8_amended :
    (∀ s : DebateState, (addRound s).rounds =
        s.rounds ++ [{ name := "Round " ++ toString (s.rounds.length + 1),
                       duration := 120 }]) ∧
    (∀ v : String, jsParseInt v = none → parseIntOrSixty v = 60) ∧
    parseIntOrSixty "0" = 60 ∧
    (∀ (i : Nat) (v : String) (s : DebateState), i < s.rounds.length →
        ((setDurationInput i v s).rounds.getD i { name := "", duration := 0 }).duration
          = parseIntOrSixty v) := by
  refine ⟨fun s => rfl, fun v h => ?_, by decide, fun i v s hi => ?_⟩
  · simp [parseIntOrSixty, h]
  · simp only [setDurationInput]
    rw [updateIdx_getD _ i s.rounds _ hi]

/-- Witness for C8 Amended at concrete inputs. -/
theorem claim_C8_witness :
    (addRound initialState).rounds.length = 4 ∧
    parseIntOrSixty "xyz" = 60 ∧
    ((setDurationInput 0 "3" initialState).rounds.getD 0
        { name := "", duration := 0 }).duration = parseIntOrSixty "3" := by
  refine ⟨?_, claim_C8_amended.2.1 "xyz" (by decide),
    claim_C8_amended.2.2.2 0 "3" initialState (by decide)⟩
  rw [claim_C8_amended.1 initialState]
  decide

/-- Claim C9: from the two-round plan with the cursor on the first
round, `nextRound` moves the cursor to 1 and loads 180 seconds into a
paused timer (3 minutes 0 seconds); on the last round it is a no-op. -/
theorem claim_C9_nextRound (s : DebateState) :
    (s.rounds = [{ name := "Opening", duration := 120 },
                 { name := "Rebuttal", duration := 180 }] →
      s.currentRound = 0 →
      nextRound s =
        { s with
          currentRound := 1
          timerSettings := { minutes := 3, seconds := 0, active := false }
          timeRemaining := 180 }) ∧
    (s.currentRound = s.rounds.length - 1 → nextRound s = s) := by
  constructor
  · intro hr hc
    have hguard : s.currentRound < s.rounds.length - 1 := by
      rw [hr, hc]
      decide
    have hdiv : jsFloorDiv 180 60 = 3 := by decide
    have hrem : jsRem 180 60 = 0 := by decide
    simp [nextRound, hguard, hr, hc, hdiv, hrem]
  · intro h
    have hguard : ¬ s.currentRound < s.rounds.length - 1 := by omega
    simp [nextRound, hguard]

/-- Witness for C9 at the concrete two-round plan. -/
theorem claim_C9_witness :
    nextRound twoRoundState =
      { twoRoundState with
        currentRound := 1
        timerSettings := { minutes := 3, seconds := 0, active := false }
        timeRemaining := 180 } ∧
    nextRound { twoRoundState with currentRound := 1 } =
      { twoRoundState with currentRound := 1 } :=
  ⟨(claim_C9_nextRound twoRoundState).1 rfl rfl,
    (claim_C9_nextRound { twoRoundState with currentRound := 1 }).2 rfl⟩

/-- Claim C10: submitting a draft that trims to the empty string is a
silent no-op — the whole state (transcript included) is unchanged, and
no request is issued. -/
theorem claim_C10_empty_draft (outcome : Except Unit FetchResolved) (s : DebateState)
    (h : jsTrim s.userInput = "") :
    startDebate outcome s = s ∧ (startDebateSync s).2 = false := by
  constructor
  · cases outcome <;> simp [startDebate, startDebateSync, h]
  · simp [startDebateSync, h]

/-- Witness for C10 at the concrete whitespace-only draft. -/
theorem claim_C10_witness :
    startDebate (.error ()) { initialState with userInput := "  " }
        = { initialState with userInput := "  " } :=
  (claim_C10_empty_draft (.error ()) { initialState with userInput := "  " }
    (by decide)).1

end DebateMate
